import Mathlib

/-!
Verification development for the Spotify Obsidian plugin (fetch/cache/auth core).

The repository ships two revisions of the plugin:
  - src/spotify_plugin_main.js  (embedded below in namespace SP)
  - src/main.js                 (embedded below in namespace Main)
Both are JavaScript; configuration objects are modelled as ordered association
lists (JavaScript objects preserve string-key insertion order, and
JSON.stringify serializes fields in that order), JSON values as the inductive
type Json, time as Int milliseconds, and HTTP as an environment function from
endpoint strings to results.  Machine floats do not occur on the paths
modelled here: all numbers involved are integers.
-/

set_option autoImplicit false

/-- A JavaScript/JSON value.  The constructor undefined models the JavaScript
value undefined (absent object property); null models JSON null. -/
inductive Json where
  | null
  | undefined
  | bool (b : Bool)
  | num (n : Int)
  | str (s : String)
  | arr (xs : List Json)
  | obj (fields : List (String × Json))

/-- Strict equality of a JavaScript value with a string literal, as in the
switch statements switch (config.type) of both revisions. -/
def jsStrEq (j : Json) (s : String) : Bool :=
  match j with
  | .str x => x = s
  | _ => false

/-- JavaScript truthiness of a value (used by the sources in conditions such
as if (key and value), config.type or-default, and template fallbacks). -/
def jsTruthy : Json → Bool
  | .null => false
  | .undefined => false
  | .bool b => b
  | .num n => decide (n ≠ 0)
  | .str s => decide (s ≠ "")
  | .arr _ => true
  | .obj _ => true

mutual

/-- JavaScript String(x) conversion, as used by template literals in the
sources (endpoint construction and error messages). -/
def jsDisplay : Json → String
  | .null => "null"
  | .undefined => "undefined"
  | .bool b => if b then "true" else "false"
  | .num n => toString n
  | .str s => s
  | .arr xs => String.intercalate "," (jsDisplayList xs)
  | .obj _ => "[object Object]"

def jsDisplayList : List Json → List String
  | [] => []
  | x :: xs => jsDisplay x :: jsDisplayList xs

end

/-- The JavaScript expression a or-else b (a || b): a when truthy, else b. -/
def jsOr (a b : Json) : Json := if jsTruthy a then a else b

/-- A configuration object: an ordered association list of fields, in
insertion order, exactly as a JavaScript object records them. -/
abbrev Config := List (String × Json)

/-- Property read on a config object; absent keys read as undefined. -/
def getF : Config → String → Json
  | [], _ => .undefined
  | (k0, v0) :: rest, k => if k0 = k then v0 else getF rest k

/-- Property assignment on a config object: JavaScript keeps the original
insertion position when a key is reassigned, and appends new keys. -/
def setF : Config → String → Json → Config
  | [], k, v => [(k, v)]
  | (k0, v0) :: rest, k, v =>
      if k0 = k then (k0, v) :: rest else (k0, v0) :: setF rest k v

/-- Property read on an arbitrary value (undefined on non-objects, matching
the optional-chaining reads in the sources). -/
def getFieldJS : Json → String → Json
  | .obj fs, k => getF fs k
  | _, _ => .undefined

/-- Property assignment on an arbitrary value.  On non-objects this is a
no-op (the sources only assign properties of fetched JSON objects). -/
def setFieldJS : Json → String → Json → Json
  | .obj fs, k, v => .obj (setF fs k v)
  | j, _, _ => j

def hexLowerChar (n : Nat) : Char :=
  if n < 10 then Char.ofNat (48 + n) else Char.ofNat (87 + n)

def hexUpperChar (n : Nat) : Char :=
  if n < 10 then Char.ofNat (48 + n) else Char.ofNat (55 + n)

/-- JSON string escaping as performed by JSON.stringify. -/
def escapeJsonChar (c : Char) : String :=
  if c = '"' then "\\\""
  else if c = '\\' then "\\\\"
  else if c = '\n' then "\\n"
  else if c = '\r' then "\\r"
  else if c = '\t' then "\\t"
  else if c.toNat < 32 then
    "\\u00" ++ String.singleton (hexLowerChar (c.toNat / 16))
      ++ String.singleton (hexLowerChar (c.toNat % 16))
  else String.singleton c

def escapeJson (s : String) : String :=
  String.join (s.toList.map escapeJsonChar)

def quoteJson (s : String) : String := "\"" ++ escapeJson s ++ "\""

mutual

/-- JSON.stringify on a value; none models the JavaScript result undefined
(object fields holding undefined are omitted from the serialization). -/
def jsonStringify : Json → Option String
  | .null => some "null"
  | .undefined => none
  | .bool b => some (if b then "true" else "false")
  | .num n => some (toString n)
  | .str s => some (quoteJson s)
  | .arr xs => some ("[" ++ String.intercalate "," (jsonStringifyArr xs) ++ "]")
  | .obj fs => some ("\x7b" ++ String.intercalate "," (jsonStringifyFields fs) ++ "\x7d")

def jsonStringifyArr : List Json → List String
  | [] => []
  | x :: xs => (jsonStringify x).getD "null" :: jsonStringifyArr xs

def jsonStringifyFields : List (String × Json) → List String
  | [] => []
  | (k, v) :: fs =>
      match jsonStringify v with
      | some sv => (quoteJson k ++ ":" ++ sv) :: jsonStringifyFields fs
      | none => jsonStringifyFields fs

end

/-- The cache key used by fetchSpotifyData in both revisions:
JSON.stringify(config), serializing fields in insertion order. -/
def cacheKey (cfg : Config) : String :=
  "\x7b" ++ String.intercalate "," (jsonStringifyFields cfg) ++ "\x7d"

def digitsToNat (l : List Char) : Nat :=
  l.foldl (fun acc c => acc * 10 + (c.toNat - 48)) 0

/-- JavaScript parseInt restricted to the inputs the plugin feeds it
(already-trimmed decimal strings; hexadecimal prefixes do not occur).
Returns none for NaN. -/
def parseIntJS (s : String) : Option Int :=
  match s.toList with
  | '-' :: rest =>
      let d := rest.takeWhile Char.isDigit
      if d.isEmpty then none else some (-(digitsToNat d : Int))
  | '+' :: rest =>
      let d := rest.takeWhile Char.isDigit
      if d.isEmpty then none else some ((digitsToNat d : Int))
  | l =>
      let d := l.takeWhile Char.isDigit
      if d.isEmpty then none else some ((digitsToNat d : Int))

/-- UTF-8 byte sequence of a character, for percent-encoding. -/
def utf8Bytes (c : Char) : List Nat :=
  let n := c.toNat
  if n < 128 then [n]
  else if n < 2048 then [192 + n / 64, 128 + n % 64]
  else if n < 65536 then [224 + n / 4096, 128 + n / 64 % 64, 128 + n % 64]
  else [240 + n / 262144, 128 + n / 4096 % 64, 128 + n / 64 % 64, 128 + n % 64]

/-- Characters left unescaped by encodeURIComponent. -/
def uriUnreservedChar (c : Char) : Bool :=
  c.isAlphanum || c = '-' || c = '_' || c = '.' || c = '!' || c = '~'
    || c = '*' || c = Char.ofNat 39 || c = '(' || c = ')'

def percentByte (b : Nat) : String :=
  "%" ++ String.singleton (hexUpperChar (b / 16)) ++ String.singleton (hexUpperChar (b % 16))

/-- JavaScript encodeURIComponent, used for search queries. -/
def encodeURIComponent (s : String) : String :=
  String.join (s.toList.map (fun c =>
    if uriUnreservedChar c then String.singleton c
    else String.join ((utf8Bytes c).map percentByte)))

/-- Search for the literal needle anywhere in hay; at each occurrence the
following alphanumeric run is the candidate capture group, and (like the
regex engine) the search continues when that run is empty. -/
def regexIdSearch (hay : List Char) (needle : List Char) : Option (List Char) :=
  match hay with
  | [] => none
  | _ :: t =>
      if needle.isPrefixOf hay then
        if ((hay.drop needle.length).takeWhile Char.isAlphanum).isEmpty then
          regexIdSearch t needle
        else some ((hay.drop needle.length).takeWhile Char.isAlphanum)
      else regexIdSearch t needle

def extractOne (url : String) (kind : String) : Option String :=
  (regexIdSearch url.toList ("spotify.com/" ++ kind ++ "/").toList).map String.mk

/-- extractIdFromUrl (src/spotify_plugin_main.js lines 177-189): tries the
track, album, artist, playlist URL patterns in order. -/
def extractIdFromUrl (url : String) : Except String String :=
  match ["track", "album", "artist", "playlist"].findSome? (extractOne url) with
  | some i => .ok i
  | none => .error "Could not extract ID from Spotify URL"

/-- formatDuration (src/spotify_plugin_main.js lines 285-289 and src/main.js
lines 742-746): helper String.prototype.padStart(2, the zero character). -/
def padStartTwoZero (s : String) : String :=
  if s.length ≥ 2 then s else String.mk (List.replicate (2 - s.length) '0') ++ s

def formatDuration (ms : Nat) : String :=
  let minutes := ms / 60000
  let seconds := (ms % 60000) / 1000
  Nat.repr minutes ++ ":" ++ padStartTwoZero (Nat.repr seconds)

/-! Code-block parsing, shared line handling (identical in both revisions):
the source is split on newlines, blank lines dropped, each line split on a
colon with both parts trimmed, and truthy key/value pairs stored. -/

structure Settings where
  defaultLayout : String
  maxResults : Int

/-- Splitting a character list at every occurrence of a separator character
(the sources only ever split on the one-character separators newline and
colon, so this is exactly String.prototype.split there). -/
def splitOnCharAux (c : Char) : List Char → List Char → List (List Char)
  | [], acc => [acc.reverse]
  | x :: xs, acc =>
      if x = c then acc.reverse :: splitOnCharAux c xs []
      else splitOnCharAux c xs (x :: acc)

def splitOnChar (c : Char) (s : String) : List String :=
  (splitOnCharAux c s.toList []).map String.mk

/-- String.prototype.trim: strip leading and trailing whitespace. -/
def trimJS (s : String) : String :=
  String.mk (((s.toList.dropWhile Char.isWhitespace).reverse.dropWhile Char.isWhitespace).reverse)

/-- The per-line normalization both parsers perform:
source.split on newline, filter by trimmed truthiness, then each line split
on a colon with every part trimmed. -/
def normLines (source : String) : List (List String) :=
  ((splitOnChar '\n' source).filter (fun l => !(trimJS l == ""))).map
    (fun l => (splitOnChar ':' l).map trimJS)

/-- One loop iteration: destructure the first two parts as key and value and
store when both are truthy (non-empty). -/
def rawLineStep (cfg : Config) (parts : List String) : Config :=
  match parts with
  | k :: v :: _ => if !(k == "") && !(v == "") then setF cfg k (Json.str v) else cfg
  | _ => cfg

/-- The field-collection loop shared by parseCodeBlockConfig in both
revisions. -/
def rawParse (source : String) : Config :=
  (normLines source).foldl rawLineStep []

/-- The value stored by config.limit = parseInt(config.limit) or maxResults
in src/spotify_plugin_main.js line 152: parseInt coerces its argument to a
string first; NaN and 0 are falsy and fall back to maxResults. -/
def limitVal (st : Settings) (v : Json) : Json :=
  match parseIntJS (jsDisplay v) with
  | some n => if n = 0 then Json.num st.maxResults else Json.num n
  | none => Json.num st.maxResults

namespace SP

/-- Default application and validation of parseCodeBlockConfig
(src/spotify_plugin_main.js lines 149-154), applied to the collected raw
fields.  The assignment config.id = config.id or (url ? extract : undefined)
always assigns, and extractIdFromUrl may throw. -/
def applyDefaults (st : Settings) (cfg0 : Config) : Except String Config :=
  let cfg1 := setF cfg0 "type" (jsOr (getF cfg0 "type") (Json.str "playlist"))
  let idRes : Except String Json :=
    if jsTruthy (getF cfg1 "id") then .ok (getF cfg1 "id")
    else if jsTruthy (getF cfg1 "url") then
      match extractIdFromUrl (jsDisplay (getF cfg1 "url")) with
      | .ok i => .ok (Json.str i)
      | .error e => .error e
    else .ok Json.undefined
  match idRes with
  | .error e => .error e
  | .ok idv =>
    let cfg2 := setF cfg1 "id" idv
    let cfg3 := setF cfg2 "layout" (jsOr (getF cfg2 "layout") (Json.str st.defaultLayout))
    let cfg4 := setF cfg3 "limit" (limitVal st (getF cfg3 "limit"))
    if jsTruthy (getF cfg4 "id") then .ok cfg4 else .error "No Spotify ID given"

/-- parseCodeBlockConfig, src/spotify_plugin_main.js lines 142-155. -/
def parseCodeBlockConfig (st : Settings) (source : String) : Except String Config :=
  applyDefaults st (rawParse source)

end SP

namespace Main

/-- parseCodeBlockConfig, src/main.js lines 111-128: only layout, type and
limit defaults are applied (in that order); there is no id extraction and no
missing-id check, so this function never throws. -/
def applyDefaults (st : Settings) (cfg0 : Config) : Config :=
  let cfg1 := setF cfg0 "layout" (jsOr (getF cfg0 "layout") (Json.str st.defaultLayout))
  let cfg2 := setF cfg1 "type" (jsOr (getF cfg1 "type") (Json.str "playlist"))
  setF cfg2 "limit" (jsOr (getF cfg2 "limit") (Json.num st.maxResults))

def parseCodeBlockConfig (st : Settings) (source : String) : Except String Config :=
  .ok (applyDefaults st (rawParse source))

end Main

/-! The response cache shared by both revisions: a Map from the stringified
config to an entry holding the payload and the time it was stored. -/

structure CacheEntry where
  data : Json
  timestamp : Int

abbrev Cache := List (String × CacheEntry)

def cacheGet : Cache → String → Option CacheEntry
  | [], _ => none
  | (k0, e) :: rest, k => if k0 = k then some e else cacheGet rest k

def cacheSet : Cache → String → CacheEntry → Cache
  | [], k, e => [(k, e)]
  | (k0, e0) :: rest, k, e =>
      if k0 = k then (k0, e) :: rest else (k0, e0) :: cacheSet rest k e

/-- this.cacheTimeout = 5 * 60 * 1000 (both constructors). -/
def cacheTimeout : Int := 5 * 60 * 1000

/-- The cache lookup test of fetchSpotifyData in both revisions: an entry
exists and Date.now() - cached.timestamp < this.cacheTimeout. -/
def freshHit (cache : Cache) (k : String) (now : Int) : Bool :=
  match cacheGet cache k with
  | some e => decide (now - e.timestamp < cacheTimeout)
  | none => false

/-- The HTTP layer under fetchSpotifyData, abstracted per endpoint: each
endpoint string yields either the decoded JSON payload or the thrown error
message (the outcome of makeSpotifyRequest for that endpoint). -/
abbrev Env := String → Except String Json

def isErr : Except String Json → Bool
  | .error _ => true
  | .ok _ => false

/-- One HTTP sub-request together with its request-log entry. -/
def req (env : Env) (ep : String) : Except String Json × List String :=
  (env ep, [ep])

namespace SP

/-! Data fetching, src/spotify_plugin_main.js lines 193-261.  The composite
fetches issue their sub-requests via Promise.all: every sub-request is
issued (and logged) and the composite rejects with the first failing
sub-request in list order when any fails. -/

def fetchTrack (env : Env) (id : String) : Except String Json × List String :=
  req env ("/tracks/" ++ id)

def albumEndpoints (id : String) : List String :=
  ["/albums/" ++ id, "/albums/" ++ id ++ "/tracks?limit=50"]

/-- fetchAlbum (lines 234-241): Promise.all of the album resource and its
track page, then album.tracks = (an object holding items: tracks.items). -/
def fetchAlbum (env : Env) (id : String) : Except String Json × List String :=
  let r1 := env ("/albums/" ++ id)
  let r2 := env ("/albums/" ++ id ++ "/tracks?limit=50")
  let res : Except String Json :=
    match r1, r2 with
    | .ok album, .ok tracks =>
        .ok (setFieldJS album "tracks" (Json.obj [("items", getFieldJS tracks "items")]))
    | .error e, _ => .error e
    | _, .error e => .error e
  (res, albumEndpoints id)

def artistEndpoints (id : String) : List String :=
  ["/artists/" ++ id,
   "/artists/" ++ id ++ "/top-tracks?market=US",
   "/artists/" ++ id ++ "/albums?include_groups=album,single&market=US&limit=20"]

/-- fetchArtist (lines 243-252): Promise.all of artist, top tracks, albums;
then artist.topTracks = topTracks.tracks and artist.albums = albums.items. -/
def fetchArtist (env : Env) (id : String) : Except String Json × List String :=
  let r1 := env ("/artists/" ++ id)
  let r2 := env ("/artists/" ++ id ++ "/top-tracks?market=US")
  let r3 := env ("/artists/" ++ id ++ "/albums?include_groups=album,single&market=US&limit=20")
  let res : Except String Json :=
    match r1, r2, r3 with
    | .ok artist, .ok topTracks, .ok albums =>
        .ok (setFieldJS (setFieldJS artist "topTracks" (getFieldJS topTracks "tracks"))
              "albums" (getFieldJS albums "items"))
    | .error e, _, _ => .error e
    | _, .error e, _ => .error e
    | _, _, .error e => .error e
  (res, artistEndpoints id)

/-- fetchPlaylist (lines 254-256): one request, no pagination. -/
def fetchPlaylist (env : Env) (id : String) : Except String Json × List String :=
  req env ("/playlists/" ++ id)

def searchEndpoint (query typeJ limitJ : Json) : String :=
  let t := match typeJ with | .undefined => Json.str "track" | x => x
  let l := match limitJ with | .undefined => Json.num 20 | x => x
  "/search?q=" ++ encodeURIComponent (jsDisplay query)
    ++ "&type=" ++ jsDisplay t ++ "&limit=" ++ jsDisplay l

/-- searchSpotify (lines 258-261); the defaults type = track and limit = 20
apply when the corresponding argument is undefined. -/
def searchSpotify (env : Env) (query typeJ limitJ : Json) : Except String Json × List String :=
  req env (searchEndpoint query typeJ limitJ)

/-- The switch dispatch of fetchSpotifyData (lines 202-220). -/
def dispatch (env : Env) (cfg : Config) : Except String Json × List String :=
  let t := getF cfg "type"
  if jsStrEq t "track" then fetchTrack env (jsDisplay (getF cfg "id"))
  else if jsStrEq t "album" then fetchAlbum env (jsDisplay (getF cfg "id"))
  else if jsStrEq t "artist" then fetchArtist env (jsDisplay (getF cfg "id"))
  else if jsStrEq t "playlist" then fetchPlaylist env (jsDisplay (getF cfg "id"))
  else if jsStrEq t "search" then
    searchSpotify env (getF cfg "query") (getF cfg "searchType") (getF cfg "limit")
  else (.error ("Unknown data type: " ++ jsDisplay t), [])

/-- The endpoints the dispatch issues for a descriptor (empty for an
unrecognized content type). -/
def dispatchEndpoints (cfg : Config) : List String :=
  let t := getF cfg "type"
  if jsStrEq t "track" then ["/tracks/" ++ jsDisplay (getF cfg "id")]
  else if jsStrEq t "album" then albumEndpoints (jsDisplay (getF cfg "id"))
  else if jsStrEq t "artist" then artistEndpoints (jsDisplay (getF cfg "id"))
  else if jsStrEq t "playlist" then ["/playlists/" ++ jsDisplay (getF cfg "id")]
  else if jsStrEq t "search" then
    [searchEndpoint (getF cfg "query") (getF cfg "searchType") (getF cfg "limit")]
  else []

/-- The tail of the cache-miss path of fetchSpotifyData: on success store
the payload under the descriptor key with the current time; a thrown error
is logged and rethrown unchanged, leaving the cache untouched. -/
def finishWith (cache : Cache) (k : String) (now : Int)
    (r : Except String Json × List String) : Except String Json × Cache × List String :=
  match r with
  | (.ok d, log) => (.ok d, cacheSet cache k ⟨d, now⟩, log)
  | (.error e, log) => (.error e, cache, log)

/-- The cache-miss path of fetchSpotifyData: dispatch, then finish. -/
def fetchPath (env : Env) (cfg : Config) (cache : Cache) (now : Int) :
    Except String Json × Cache × List String :=
  finishWith cache (cacheKey cfg) now (dispatch env cfg)

/-- fetchSpotifyData (lines 193-228).  Date.now() is modelled by the single
argument now for the whole call (the call re-reads the clock when storing;
the difference is immaterial to the properties below, which treat the store
time as the fetch time). -/
def fetchSpotifyData (env : Env) (cfg : Config) (cache : Cache) (now : Int) :
    Except String Json × Cache × List String :=
  match cacheGet cache (cacheKey cfg) with
  | some e =>
      if now - e.timestamp < cacheTimeout then (.ok e.data, cache, [])
      else fetchPath env cfg cache now
  | none => fetchPath env cfg cache now

end SP

def jsArrItems : Json → List Json
  | .arr xs => xs
  | _ => []

/-- The guard playlist.tracks.total > 100 (src/main.js line 492); a
comparison against a non-number is false in JavaScript. -/
def jsGT100 : Json → Bool
  | .num n => decide (n > 100)
  | _ => false

namespace Main

/-! Data fetching, src/main.js lines 378-592. -/

def fetchTrack (env : Env) (id : String) : Except String Json × List String :=
  req env ("/tracks/" ++ id)

/-- fetchAlbum (lines 452-462): the spread merge behaves as a property
assignment of the whole track-page response under tracks. -/
def fetchAlbum (env : Env) (id : String) : Except String Json × List String :=
  let r1 := env ("/albums/" ++ id)
  let r2 := env ("/albums/" ++ id ++ "/tracks?limit=50")
  let res : Except String Json :=
    match r1, r2 with
    | .ok album, .ok tracks => .ok (setFieldJS album "tracks" tracks)
    | .error e, _ => .error e
    | _, .error e => .error e
  (res, SP.albumEndpoints id)

def fetchArtist (env : Env) (id : String) : Except String Json × List String :=
  let r1 := env ("/artists/" ++ id)
  let r2 := env ("/artists/" ++ id ++ "/top-tracks?market=US")
  let r3 := env ("/artists/" ++ id ++ "/albums?include_groups=album,single&market=US&limit=20")
  let res : Except String Json :=
    match r1, r2, r3 with
    | .ok artist, .ok topTracks, .ok albums =>
        .ok (setFieldJS (setFieldJS artist "topTracks" (getFieldJS topTracks "tracks"))
              "albums" (getFieldJS albums "items"))
    | .error e, _, _ => .error e
    | _, .error e, _ => .error e
    | _, _, .error e => .error e
  (res, SP.artistEndpoints id)

/-- fetchAllPlaylistTracks (lines 505-525).  The source runs an unbounded
while loop that stops once a page returns fewer than 100 items; the fuel
argument bounds the number of iterations of that loop (the counterexamples
below use enough fuel that the bound is never the reason the loop stops). -/
def fetchAllPlaylistTracksAux (env : Env) (id : String) :
    Nat → Nat → List Json → Except String (List Json) × List String
  | 0, _, _ => (.error "pagination fuel exhausted", [])
  | fuel + 1, offset, acc =>
      let ep := "/playlists/" ++ id ++ "/tracks?offset=" ++ toString offset ++ "&limit=100"
      match env ep with
      | .error e => (.error e, [ep])
      | .ok resp =>
          let items := jsArrItems (getFieldJS resp "items")
          if items.length < 100 then (.ok (acc ++ items), [ep])
          else
            let next := fetchAllPlaylistTracksAux env id fuel (offset + 100) (acc ++ items)
            (next.1, ep :: next.2)

def fetchAllPlaylistTracks (fuel : Nat) (env : Env) (id : String) :
    Except String (List Json) × List String :=
  fetchAllPlaylistTracksAux env id fuel 0 []

/-- fetchPlaylist (lines 488-498): fetch the playlist resource, and when its
embedded track count exceeds 100, replace playlist.tracks.items with the
fully paginated track list. -/
def fetchPlaylist (fuel : Nat) (env : Env) (id : String) :
    Except String Json × List String :=
  let ep := "/playlists/" ++ id
  match env ep with
  | .error e => (.error e, [ep])
  | .ok playlist =>
      if jsGT100 (getFieldJS (getFieldJS playlist "tracks") "total") then
        match fetchAllPlaylistTracks fuel env id with
        | (.ok allTracks, log) =>
            (.ok (setFieldJS playlist "tracks"
                   (setFieldJS (getFieldJS playlist "tracks") "items" (Json.arr allTracks))),
             ep :: log)
        | (.error e, log) => (.error e, ep :: log)
      else (.ok playlist, [ep])

def searchSpotify (env : Env) (query typeJ limitJ : Json) :
    Except String Json × List String :=
  req env (SP.searchEndpoint query typeJ limitJ)

/-- fetchUserPlaylists (lines 548-551). -/
def fetchUserPlaylists (env : Env) (userId : Json) : Except String Json × List String :=
  let endpoint := if jsTruthy userId then "/users/" ++ jsDisplay userId ++ "/playlists"
                  else "/me/playlists"
  req env (endpoint ++ "?limit=50")

def fetchUserTopTracks (env : Env) (timeRange limitJ : Json) :
    Except String Json × List String :=
  let tr := match timeRange with | .undefined => Json.str "medium_term" | x => x
  let l := match limitJ with | .undefined => Json.num 20 | x => x
  req env ("/me/top/tracks?time_range=" ++ jsDisplay tr ++ "&limit=" ++ jsDisplay l)

def fetchUserTopArtists (env : Env) (timeRange limitJ : Json) :
    Except String Json × List String :=
  let tr := match timeRange with | .undefined => Json.str "medium_term" | x => x
  let l := match limitJ with | .undefined => Json.num 20 | x => x
  req env ("/me/top/artists?time_range=" ++ jsDisplay tr ++ "&limit=" ++ jsDisplay l)

def fetchRecentlyPlayed (env : Env) (limitJ : Json) : Except String Json × List String :=
  let l := match limitJ with | .undefined => Json.num 20 | x => x
  req env ("/me/player/recently-played?limit=" ++ jsDisplay l)

def fetchCurrentlyPlaying (env : Env) : Except String Json × List String :=
  req env "/me/player/currently-playing"

/-- The switch dispatch of fetchSpotifyData (lines 389-422): ten recognized
content types. -/
def dispatch (fuel : Nat) (env : Env) (cfg : Config) : Except String Json × List String :=
  let t := getF cfg "type"
  if jsStrEq t "track" then fetchTrack env (jsDisplay (getF cfg "id"))
  else if jsStrEq t "album" then fetchAlbum env (jsDisplay (getF cfg "id"))
  else if jsStrEq t "artist" then fetchArtist env (jsDisplay (getF cfg "id"))
  else if jsStrEq t "playlist" then fetchPlaylist fuel env (jsDisplay (getF cfg "id"))
  else if jsStrEq t "search" then
    searchSpotify env (getF cfg "query") (getF cfg "searchType") (getF cfg "limit")
  else if jsStrEq t "user-playlists" then fetchUserPlaylists env (getF cfg "userId")
  else if jsStrEq t "user-top-tracks" then
    fetchUserTopTracks env (getF cfg "timeRange") (getF cfg "limit")
  else if jsStrEq t "user-top-artists" then
    fetchUserTopArtists env (getF cfg "timeRange") (getF cfg "limit")
  else if jsStrEq t "recently-played" then fetchRecentlyPlayed env (getF cfg "limit")
  else if jsStrEq t "current-playing" then fetchCurrentlyPlaying env
  else (.error ("Unknown data type: " ++ jsDisplay t), [])

/-- fetchSpotifyData (lines 378-435): identical cache handling to the SP
revision around the wider dispatch. -/
def fetchSpotifyData (fuel : Nat) (env : Env) (cfg : Config) (cache : Cache) (now : Int) :
    Except String Json × Cache × List String :=
  match cacheGet cache (cacheKey cfg) with
  | some e =>
      if now - e.timestamp < cacheTimeout then (.ok e.data, cache, [])
      else
        match dispatch fuel env cfg with
        | (.ok d, log) => (.ok d, cacheSet cache (cacheKey cfg) ⟨d, now⟩, log)
        | (.error e, log) => (.error e, cache, log)
  | none =>
      match dispatch fuel env cfg with
      | (.ok d, log) => (.ok d, cacheSet cache (cacheKey cfg) ⟨d, now⟩, log)
      | (.error e, log) => (.error e, cache, log)

end Main

/-! Authentication, src/spotify_plugin_main.js lines 59-92 and src/main.js
lines 56-90 and 638-691. -/

/-- The outcome of the POST to the token endpoint: the fetch throws, or the
provider answers with a non-success status, or it returns a token payload
(access_token together with expires_in seconds). -/
inductive ExchangeOutcome where
  | throws
  | httpError (status : Nat)
  | success (accessToken : String) (expiresInSec : Int)

/-- The token-holding state of the SP revision: the in-memory fields
this.accessToken and this.tokenExpiry plus their persisted mirrors in
this.settings (none models null). -/
structure SPAuthState where
  accessToken : Option String
  tokenExpiry : Option Int
  settingsAccessToken : Option String
  settingsTokenExpiresAt : Option Int

namespace SP

/-- authenticateSpotify (src/spotify_plugin_main.js lines 59-85).  On
success every token field is replaced and persisted and the call returns
true; any failure (non-ok status or a thrown fetch error) is caught inside
the function, which then shows a notice and returns false, leaving the
state exactly as it was.  src/main.js lines 56-82 handle failure the same
way (it only omits the settings persistence on success). -/
def authenticateSpotify (st : SPAuthState) (now : Int) (o : ExchangeOutcome) :
    Bool × SPAuthState :=
  match o with
  | .success tok expSec =>
      (true, { accessToken := some tok,
               tokenExpiry := some (now + expSec * 1000),
               settingsAccessToken := some tok,
               settingsTokenExpiresAt := some (now + expSec * 1000) })
  | .httpError _ => (false, st)
  | .throws => (false, st)

/-- The JavaScript test not this.accessToken. -/
def tokenAbsent (st : SPAuthState) : Bool :=
  match st.accessToken with
  | none => true
  | some s => s.isEmpty

/-- getValidAccessToken (src/spotify_plugin_main.js lines 87-92):
re-authenticate when no token is held or Date.now() is at or past
this.tokenExpiry (null compares as 0); no safety margin is applied.
The first component records whether a token exchange was triggered. -/
def getValidAccessToken (st : SPAuthState) (now : Int) (o : ExchangeOutcome) :
    Bool × SPAuthState × Option String :=
  if tokenAbsent st || decide (now ≥ st.tokenExpiry.getD 0) then
    let r := authenticateSpotify st now o
    (true, r.2, r.2.accessToken)
  else (false, st, st.accessToken)

end SP

/-- The settings blob of the main.js revision as used by its token logic. -/
structure MainSettings where
  accessToken : Option String
  tokenExpiresAt : Option Int
  refreshToken : Option String

/-- The outcome of the refresh-token POST in src/main.js. -/
inductive RefreshOutcome where
  | failure
  | success (accessToken : String) (expiresInSec : Int) (newRefreshToken : Option String)

namespace Main

def strOptTruthy : Option String → Bool
  | none => false
  | some s => !s.isEmpty

/-- refreshAccessToken (src/main.js lines 659-691): requires a refresh
token; on success replaces the access token and expiry and keeps or
replaces the refresh token; on a non-ok response it throws. -/
def refreshAccessToken (s : MainSettings) (now : Int) (ro : RefreshOutcome) :
    Except String MainSettings :=
  if !strOptTruthy s.refreshToken then
    .error "No refresh token available. Please re-authenticate."
  else
    match ro with
    | .success tok expSec newRt =>
        .ok { accessToken := some tok,
              tokenExpiresAt := some (now + expSec * 1000),
              refreshToken :=
                match newRt with
                | some r => if r.isEmpty then s.refreshToken else some r
                | none => s.refreshToken }
    | .failure => .error "Failed to refresh access token"

/-- getValidAccessToken (src/main.js lines 638-653): throws when no access
token is held; otherwise refreshes when Date.now() is within a 5-minute
buffer of this.settings.tokenExpiresAt (a missing expiry counts as 0).  The
first component records whether a token exchange (refresh) was attempted. -/
def getValidAccessToken (s : MainSettings) (now : Int) (ro : RefreshOutcome) :
    Bool × Except String (String × MainSettings) :=
  if !strOptTruthy s.accessToken then
    (false, .error "No access token available. Please authenticate first.")
  else
    let tokenExpiresAt := s.tokenExpiresAt.getD 0
    let bufferTime : Int := 5 * 60 * 1000
    if now ≥ tokenExpiresAt - bufferTime then
      match refreshAccessToken s now ro with
      | .ok s2 => (true, .ok (s2.accessToken.getD "", s2))
      | .error e => (true, .error e)
    else (false, .ok (s.accessToken.getD "", s))

end Main

/-! The HTTP response mapping of makeSpotifyRequest (src/spotify_plugin_main.js
lines 263-281 and, verbatim, src/main.js lines 601-632). -/

/-- An HTTP response as makeSpotifyRequest observes it: status, status text,
and the outcome of parsing the body as JSON (none when response.json()
rejects). -/
structure HttpResponse where
  status : Nat
  statusText : String
  body : Option Json

/-- response.ok in the fetch API: status in the range 200-299. -/
def respOk (r : HttpResponse) : Bool :=
  decide (200 ≤ r.status) && decide (r.status ≤ 299)

/-- The expression errorData.error?.message. -/
def jsonErrMessage (j : Json) : Json :=
  getFieldJS (getFieldJS j "error") "message"

/-- The response handling of makeSpotifyRequest (the token acquisition, URL
and header construction preceding the fetch are orthogonal to the mapping
and are modelled by Env elsewhere): a non-ok status throws an error message
built from the status and errorData.error?.message or-else the status text
(the error body parse falls back to an empty object); a 204 resolves to
null; otherwise the parsed body is returned.  The result .ok none is the
JavaScript null return. -/
def makeSpotifyRequest (r : HttpResponse) : Except String (Option Json) :=
  if !respOk r then
    let errorData := r.body.getD (Json.obj [])
    let m := jsonErrMessage errorData
    .error ("Spotify API Error: " ++ toString r.status ++ " - "
      ++ (if jsTruthy m then jsDisplay m else r.statusText))
  else if r.status = 204 then .ok none
  else
    match r.body with
    | some j => .ok (some j)
    | none => .error "JSON parse error"

/-! Helper lemmas about the object and cache operations. -/

@[simp]
theorem getF_setF_self (c : Config) (k : String) (v : Json) :
    getF (setF c k v) k = v := by
  induction c with
  | nil => simp [getF, setF]
  | cons p rest ih =>
      obtain ⟨k0, v0⟩ := p
      by_cases h : k0 = k
      · simp [getF, setF, h]
      · simp [getF, setF, h, ih]

@[simp]
theorem getF_setF_ne (c : Config) (k k0 : String) (v : Json) (h : k ≠ k0) :
    getF (setF c k v) k0 = getF c k0 := by
  induction c with
  | nil => simp [getF, setF, h]
  | cons p rest ih =>
      obtain ⟨k1, v1⟩ := p
      by_cases h1 : k1 = k
      · subst h1; simp [getF, setF, h]
      · simp [getF, setF, h1, ih]

@[simp]
theorem cacheGet_cacheSet_self (c : Cache) (k : String) (e : CacheEntry) :
    cacheGet (cacheSet c k e) k = some e := by
  induction c with
  | nil => simp [cacheGet, cacheSet]
  | cons p rest ih =>
      obtain ⟨k0, e0⟩ := p
      by_cases h : k0 = k
      · simp [cacheGet, cacheSet, h]
      · simp [cacheGet, cacheSet, h, ih]

theorem jsStrEq_eq_true_iff (j : Json) (s : String) :
    jsStrEq j s = true ↔ j = Json.str s := by
  cases j <;> simp [jsStrEq]

namespace SP

/-- The request log of the dispatch is exactly the endpoint list of the
descriptor, whether the sub-requests succeed or fail. -/
theorem dispatch_log (env : Env) (cfg : Config) :
    (dispatch env cfg).2 = dispatchEndpoints cfg := by
  unfold dispatch dispatchEndpoints
  dsimp only
  split_ifs <;>
    simp [fetchTrack, fetchAlbum, fetchArtist, fetchPlaylist, searchSpotify, req,
      albumEndpoints, artistEndpoints]

/-- The request log of the cache-miss path. -/
theorem fetchPath_log (env : Env) (cfg : Config) (cache : Cache) (now : Int) :
    (fetchPath env cfg cache now).2.2 = dispatchEndpoints cfg := by
  unfold fetchPath finishWith
  rcases hd : dispatch env cfg with ⟨r, log⟩
  have := dispatch_log env cfg
  rw [hd] at this
  cases r <;> simpa using this

/-- A fresh cache hit returns the stored payload unchanged, issues no
request, and leaves the cache untouched. -/
theorem fetch_hit (env : Env) (cfg : Config) (cache : Cache) (now : Int)
    (e : CacheEntry) (h : cacheGet cache (cacheKey cfg) = some e)
    (hlt : now - e.timestamp < cacheTimeout) :
    fetchSpotifyData env cfg cache now = (.ok e.data, cache, []) := by
  unfold fetchSpotifyData
  simp [h, hlt]

/-- Without a fresh cache entry, fetchSpotifyData runs the miss path. -/
theorem fetch_stale (env : Env) (cfg : Config) (cache : Cache) (now : Int)
    (h : freshHit cache (cacheKey cfg) now = false) :
    fetchSpotifyData env cfg cache now = fetchPath env cfg cache now := by
  unfold fetchSpotifyData freshHit at *
  cases hc : cacheGet cache (cacheKey cfg) with
  | none => simp
  | some e =>
      rw [hc] at h
      simp only [decide_eq_false_iff_not] at h
      simp [h]

end SP

/-! Claim theorems. -/

theorem padStartTwoZero_repr_length (n : Nat) (h : n < 100) :
    (padStartTwoZero (Nat.repr n)).length = 2 := by
  revert h
  revert n
  decide

/-- C10: for every non-negative integer ms, formatDuration(ms) is the string
floor(ms/60000), a colon, and the remaining whole seconds (floor(ms/1000)
mod 60, always between 0 and 59) zero-padded to exactly two digits. -/
theorem spotify_c10_format_duration (ms : Nat) :
    formatDuration ms
      = Nat.repr (ms / 60000) ++ ":" ++ padStartTwoZero (Nat.repr (ms / 1000 % 60))
    ∧ ms / 1000 % 60 ≤ 59
    ∧ (padStartTwoZero (Nat.repr (ms / 1000 % 60))).length = 2 := by
  have hsec : ms % 60000 / 1000 = ms / 1000 % 60 := by
    have := Nat.mod_mul_right_div_self ms 1000 60
    simpa using this
  have hlt : ms / 1000 % 60 < 60 := Nat.mod_lt _ (by norm_num)
  refine ⟨?_, ?_, ?_⟩
  · unfold formatDuration
    rw [hsec]
  · omega
  · exact padStartTwoZero_repr_length _ (by omega)

/-- C10 witness: a concrete evaluation. -/
theorem spotify_c10_format_duration_witness :
    formatDuration 61999
      = Nat.repr (61999 / 60000) ++ ":" ++ padStartTwoZero (Nat.repr (61999 / 1000 % 60))
    ∧ 61999 / 1000 % 60 ≤ 59
    ∧ (padStartTwoZero (Nat.repr (61999 / 1000 % 60))).length = 2 :=
  spotify_c10_format_duration 61999

/-- A credential state that currently holds a token. -/
def heldState : SPAuthState :=
  { accessToken := some "old-token", tokenExpiry := some 999999,
    settingsAccessToken := some "old-token", settingsTokenExpiresAt := some 999999 }

/-- C2 counterexample: when the token endpoint answers 400, authenticateSpotify
returns the value false (the error is caught inside, not propagated) and the
previously held token is retained, not cleared. -/
theorem spotify_c2_counterexample :
    SP.authenticateSpotify heldState 0 (.httpError 400) = (false, heldState)
    ∧ (SP.authenticateSpotify heldState 0 (.httpError 400)).2.accessToken = some "old-token"
    ∧ (SP.authenticateSpotify heldState 0 (.httpError 400)).2.accessToken ≠ none :=
  ⟨rfl, rfl, by decide⟩

/-- C2 as amended: on every token-exchange failure (non-success status or a
thrown request), authenticateSpotify catches the error and returns false,
leaving the whole credential state (held token, expiry and their persisted
mirrors) unchanged; no error reaches the caller. -/
theorem spotify_c2_auth_failure_keeps_state (st : SPAuthState) (now : Int)
    (o : ExchangeOutcome) (h : o = .throws ∨ ∃ s, o = .httpError s) :
    SP.authenticateSpotify st now o = (false, st) := by
  rcases h with h | ⟨s, h⟩ <;> subst h <;> rfl

/-- C2 witness. -/
theorem spotify_c2_witness :
    ((ExchangeOutcome.httpError 401) = .throws ∨ ∃ s, (ExchangeOutcome.httpError 401) = .httpError s)
    ∧ SP.authenticateSpotify heldState 50 (.httpError 401) = (false, heldState) :=
  ⟨Or.inr ⟨401, rfl⟩,
   spotify_c2_auth_failure_keeps_state heldState 50 (.httpError 401) (Or.inr ⟨401, rfl⟩)⟩

/-- A state whose token expires in 50 seconds at the reference time 50000:
its remaining lifetime is far below the 5-minute margin. -/
def nearExpiryState : SPAuthState :=
  { accessToken := some "tok", tokenExpiry := some 100000,
    settingsAccessToken := some "tok", settingsTokenExpiresAt := some 100000 }

/-- C5 counterexample: at now = 50000 the held token satisfies
now >= expires_at - margin for the 5-minute margin, so the claim requires a
token exchange and forbids reuse; getValidAccessToken of the
spotify_plugin_main revision performs no exchange and returns the held
token unchanged. -/
theorem spotify_c5_counterexample :
    SP.getValidAccessToken nearExpiryState 50000 (.success "new" 3600)
      = (false, nearExpiryState, some "tok")
    ∧ (50000 : Int) ≥ 100000 - 5 * 60 * 1000 :=
  ⟨rfl, by decide⟩

/-- C5 as amended: in the spotify_plugin_main revision there is no safety
margin: an exchange is triggered exactly when no token is held or
now() >= expires_at, and a held non-expired token is reused (and the state
left untouched) even when its remaining lifetime is below five minutes.  In
the main.js revision a 5-minute buffer does govern refreshing for a held
token, but when no token is held that revision throws instead of performing
an exchange. -/
theorem spotify_c5_token_refresh_condition :
    (∀ (st : SPAuthState) (now : Int) (o : ExchangeOutcome),
       (SP.getValidAccessToken st now o).1 = true
         ↔ (SP.tokenAbsent st = true ∨ now ≥ st.tokenExpiry.getD 0))
    ∧ (∀ (st : SPAuthState) (now : Int) (o : ExchangeOutcome) (t : String),
       st.accessToken = some t → t ≠ "" → now < st.tokenExpiry.getD 0 →
       SP.getValidAccessToken st now o = (false, st, some t))
    ∧ (∀ (s : MainSettings) (now : Int) (ro : RefreshOutcome),
       Main.strOptTruthy s.accessToken = true →
       ((Main.getValidAccessToken s now ro).1 = true
         ↔ now ≥ s.tokenExpiresAt.getD 0 - 5 * 60 * 1000))
    ∧ (∀ (s : MainSettings) (now : Int) (ro : RefreshOutcome),
       Main.strOptTruthy s.accessToken = false →
       Main.getValidAccessToken s now ro
         = (false, .error "No access token available. Please authenticate first.")) := by
  refine ⟨?_, ?_, ?_, ?_⟩
  · intro st now o
    unfold SP.getValidAccessToken
    by_cases h : SP.tokenAbsent st = true ∨ now ≥ st.tokenExpiry.getD 0
    · have hb : (SP.tokenAbsent st || decide (now ≥ st.tokenExpiry.getD 0)) = true := by
        rcases h with h | h <;> simp [h]
      rw [if_pos hb]
      simpa using h
    · have hb : (SP.tokenAbsent st || decide (now ≥ st.tokenExpiry.getD 0)) = false := by
        push_neg at h
        simp [h.1, h.2, not_le.mpr h.2]
      rw [if_neg (by simp [hb])]
      simpa using h
  · intro st now o t hsome ht hlt
    have h1 : SP.tokenAbsent st = false := by
      unfold SP.tokenAbsent
      rw [hsome, ← Bool.not_eq_true]
      simpa [String.isEmpty_iff] using ht
    unfold SP.getValidAccessToken
    rw [if_neg (by simp [h1, not_le.mpr hlt])]
    rw [hsome]
  · intro s now ro hT
    unfold Main.getValidAccessToken
    rw [if_neg (by simp [hT])]
    by_cases h : now ≥ s.tokenExpiresAt.getD 0 - 5 * 60 * 1000
    · rw [if_pos (by simpa using h)]
      cases Main.refreshAccessToken s now ro <;> simpa using h
    · rw [if_neg (by simpa using h)]
      simpa using h
  · intro s now ro hF
    unfold Main.getValidAccessToken
    rw [if_pos (by simp [hF])]

/-- C5 witness. -/
theorem spotify_c5_witness :
    (nearExpiryState.accessToken = some "tok" ∧ "tok" ≠ "" ∧ (50000 : Int) < nearExpiryState.tokenExpiry.getD 0
      ∧ SP.getValidAccessToken nearExpiryState 50000 .throws = (false, nearExpiryState, some "tok"))
    ∧ (Main.strOptTruthy (MainSettings.mk none none none).accessToken = false
      ∧ Main.getValidAccessToken ⟨none, none, none⟩ 0 .failure
          = (false, .error "No access token available. Please authenticate first.")) :=
  ⟨⟨rfl, by decide, by decide,
    spotify_c5_token_refresh_condition.2.1 nearExpiryState 50000 .throws "tok" rfl (by decide) (by decide)⟩,
   ⟨rfl, spotify_c5_token_refresh_condition.2.2.2 ⟨none, none, none⟩ 0 .failure rfl⟩⟩

/-- A 400 response whose parsed error body carries a present but empty
message field. -/
def resp400 : HttpResponse :=
  { status := 400, statusText := "Bad Request",
    body := some (Json.obj [("error", Json.obj [("message", Json.str "")])]) }

/-- C6 counterexample: the error body message field is present (the empty
string), yet makeSpotifyRequest builds its error from the status text
instead, because the source uses the falsy-or fallback
errorData.error?.message or-else statusText. -/
theorem spotify_c6_counterexample :
    jsonErrMessage (resp400.body.getD (Json.obj [])) = Json.str ""
    ∧ makeSpotifyRequest resp400 = .error "Spotify API Error: 400 - Bad Request"
    ∧ "Spotify API Error: 400 - Bad Request" ≠ "Spotify API Error: 400 - " :=
  ⟨rfl, rfl, by decide⟩

/-- C6 as amended: a non-2xx status yields an error carrying the status code
and a message drawn from the parsed error body field error.message when that
field is present as a non-empty string, else the status text; a 204 status
is a successful terminal case resolving to the absent value, never an
error. -/
theorem spotify_c6_response_mapping (r : HttpResponse) :
    (r.status = 204 → makeSpotifyRequest r = .ok none)
    ∧ (¬(200 ≤ r.status ∧ r.status ≤ 299) →
        (∀ s : String, jsonErrMessage (r.body.getD (Json.obj [])) = Json.str s → s ≠ "" →
          makeSpotifyRequest r
            = .error ("Spotify API Error: " ++ toString r.status ++ " - " ++ s))
        ∧ ((jsonErrMessage (r.body.getD (Json.obj [])) = Json.undefined
              ∨ jsonErrMessage (r.body.getD (Json.obj [])) = Json.str "") →
          makeSpotifyRequest r
            = .error ("Spotify API Error: " ++ toString r.status ++ " - " ++ r.statusText))) := by
  constructor
  · intro h204
    have hok : respOk r = true := by simp [respOk, h204]
    unfold makeSpotifyRequest
    rw [hok]
    simp [h204]
  · intro hnot
    have hro : respOk r = false := by
      rw [← Bool.not_eq_true]
      intro hb
      exact hnot (by simpa [respOk, Bool.and_eq_true, decide_eq_true_iff] using hb)
    constructor
    · intro s hm hs
      unfold makeSpotifyRequest
      rw [hro]
      simp [hm, jsTruthy, jsDisplay, hs]
    · intro hm
      unfold makeSpotifyRequest
      rw [hro]
      rcases hm with hm | hm <;> simp [hm, jsTruthy, jsDisplay]

/-- A 404 response with a usable error message, and a 204 response. -/
def resp404 : HttpResponse :=
  { status := 404, statusText := "Not Found",
    body := some (Json.obj [("error", Json.obj [("message", Json.str "Invalid id")])]) }

def resp204 : HttpResponse := { status := 204, statusText := "No Content", body := none }

/-- C6 witness. -/
theorem spotify_c6_witness :
    (resp204.status = 204 ∧ makeSpotifyRequest resp204 = .ok none)
    ∧ (¬(200 ≤ resp404.status ∧ resp404.status ≤ 299)
      ∧ jsonErrMessage (resp404.body.getD (Json.obj [])) = Json.str "Invalid id"
      ∧ makeSpotifyRequest resp404 = .error "Spotify API Error: 404 - Invalid id") :=
  ⟨⟨rfl, (spotify_c6_response_mapping resp204).1 rfl⟩,
   ⟨by decide, rfl,
    ((spotify_c6_response_mapping resp404).2 (by decide)).1 "Invalid id" rfl (by decide)⟩⟩

/-- Settings with the stock defaults used in the demonstrations below. -/
def demoSettings : Settings := { defaultLayout := "card", maxResults := 20 }

def cfgOrderA : Config :=
  [("type", Json.str "track"), ("id", Json.str "abc"),
   ("layout", Json.str "card"), ("limit", Json.num 20)]

def cfgOrderB : Config :=
  [("id", Json.str "abc"), ("type", Json.str "track"),
   ("layout", Json.str "card"), ("limit", Json.num 20)]

/-- The semantic content of a descriptor named by the claim. -/
def semanticFields : List String :=
  ["type", "id", "query", "searchType", "limit", "layout"]

/-- C1 counterexample: the same two fields supplied in the two possible
orders parse to descriptors with identical semantic content, yet
JSON.stringify keeps insertion order, so the two cache keys differ and the
descriptors do not hit the same cache entry. -/
theorem spotify_c1_counterexample :
    SP.parseCodeBlockConfig demoSettings "type: track\nid: abc" = .ok cfgOrderA
    ∧ SP.parseCodeBlockConfig demoSettings "id: abc\ntype: track" = .ok cfgOrderB
    ∧ semanticFields.map (getF cfgOrderA) = semanticFields.map (getF cfgOrderB)
    ∧ cacheKey cfgOrderA ≠ cacheKey cfgOrderB :=
  ⟨rfl, rfl, rfl, by decide⟩

/-- C1 as amended: the cache key is the JSON serialization of the descriptor
in field-insertion order, so it is deterministic in the supplied field
order: two code blocks whose normalized key-value lines coincide (same
order, whitespace-insensitive) give the same descriptor and the same cache
key; identical semantic content alone does not suffice, as differently
ordered fields can give distinct keys. -/
theorem spotify_c1_cache_key_order (st : Settings) (s1 s2 : String)
    (h : normLines s1 = normLines s2) :
    SP.parseCodeBlockConfig st s1 = SP.parseCodeBlockConfig st s2
    ∧ (SP.parseCodeBlockConfig st s1).map cacheKey
        = (SP.parseCodeBlockConfig st s2).map cacheKey := by
  have hr : rawParse s1 = rawParse s2 := by
    unfold rawParse
    rw [h]
  constructor
  · unfold SP.parseCodeBlockConfig
    rw [hr]
  · unfold SP.parseCodeBlockConfig
    rw [hr]

/-- C1 witness: whitespace-varied but identically ordered sources. -/
theorem spotify_c1_witness :
    normLines "type: track\nid:abc\n\n" = normLines " type :track\nid : abc"
    ∧ SP.parseCodeBlockConfig demoSettings "type: track\nid:abc\n\n"
        = SP.parseCodeBlockConfig demoSettings " type :track\nid : abc" :=
  ⟨by decide,
   (spotify_c1_cache_key_order demoSettings "type: track\nid:abc\n\n" " type :track\nid : abc"
     (by decide)).1⟩

/-- A failing sub-request makes the whole album Promise.all reject with the
error of a failing sub-request. -/
theorem SP.fetchAlbum_fail (env : Env) (id : String)
    (hfail : ∃ ep ∈ SP.albumEndpoints id, isErr (env ep) = true) :
    ∃ e, SP.fetchAlbum env id = (.error e, SP.albumEndpoints id)
      ∧ ∃ ep ∈ SP.albumEndpoints id, env ep = .error e := by
  unfold SP.fetchAlbum
  unfold SP.albumEndpoints at hfail ⊢
  cases h1 : env ("/albums/" ++ id) with
  | error e =>
      exact ⟨e, by simp [h1], ⟨_, by simp, h1⟩⟩
  | ok a =>
      cases h2 : env ("/albums/" ++ id ++ "/tracks?limit=50") with
      | error e =>
          exact ⟨e, by simp [h1, h2], ⟨_, by simp, h2⟩⟩
      | ok t =>
          exfalso
          rcases hfail with ⟨ep, hmem, herr⟩
          cases hmem with
          | head => rw [h1] at herr; simp [isErr] at herr
          | tail _ hm =>
              cases hm with
              | head => rw [h2] at herr; simp [isErr] at herr
              | tail _ hm2 => cases hm2

/-- A failing sub-request makes the whole artist Promise.all reject with the
error of a failing sub-request. -/
theorem SP.fetchArtist_fail (env : Env) (id : String)
    (hfail : ∃ ep ∈ SP.artistEndpoints id, isErr (env ep) = true) :
    ∃ e, SP.fetchArtist env id = (.error e, SP.artistEndpoints id)
      ∧ ∃ ep ∈ SP.artistEndpoints id, env ep = .error e := by
  unfold SP.fetchArtist
  unfold SP.artistEndpoints at hfail ⊢
  cases h1 : env ("/artists/" ++ id) with
  | error e =>
      exact ⟨e, by simp [h1], ⟨_, by simp, h1⟩⟩
  | ok a =>
      cases h2 : env ("/artists/" ++ id ++ "/top-tracks?market=US") with
      | error e =>
          exact ⟨e, by simp [h1, h2], ⟨_, by simp, h2⟩⟩
      | ok t =>
          cases h3 : env ("/artists/" ++ id ++ "/albums?include_groups=album,single&market=US&limit=20") with
          | error e =>
              exact ⟨e, by simp [h1, h2, h3], ⟨_, by simp, h3⟩⟩
          | ok al =>
              exfalso
              rcases hfail with ⟨ep, hmem, herr⟩
              cases hmem with
              | head => rw [h1] at herr; simp [isErr] at herr
              | tail _ hm =>
                  cases hm with
                  | head => rw [h2] at herr; simp [isErr] at herr
                  | tail _ hm2 =>
                      cases hm2 with
                      | head => rw [h3] at herr; simp [isErr] at herr
                      | tail _ hm3 => cases hm3

/-- C3: for every composite fetch (album: two sub-requests; artist: three),
if any sub-request fails then fetchSpotifyData rejects with the error of a
failing sub-request and the cache is left unchanged for that descriptor: no
entry containing partial data is created. -/
theorem spotify_c3_composite_atomicity (env : Env) (cfg : Config) (cache : Cache)
    (now : Int) (hfresh : freshHit cache (cacheKey cfg) now = false)
    (htype : jsStrEq (getF cfg "type") "album" = true ∨ jsStrEq (getF cfg "type") "artist" = true)
    (hfail : ∃ ep ∈ SP.dispatchEndpoints cfg, isErr (env ep) = true) :
    ∃ e, SP.fetchSpotifyData env cfg cache now = (.error e, cache, SP.dispatchEndpoints cfg)
      ∧ ∃ ep ∈ SP.dispatchEndpoints cfg, env ep = .error e := by
  rw [SP.fetch_stale env cfg cache now hfresh]
  unfold SP.fetchPath
  rcases htype with h | h
  · have h' := (jsStrEq_eq_true_iff _ _).mp h
    have hd : SP.dispatch env cfg = SP.fetchAlbum env (jsDisplay (getF cfg "id")) := by
      unfold SP.dispatch
      simp [h', jsStrEq]
    have he : SP.dispatchEndpoints cfg = SP.albumEndpoints (jsDisplay (getF cfg "id")) := by
      unfold SP.dispatchEndpoints
      simp [h', jsStrEq]
    rw [he] at hfail ⊢
    rw [hd]
    obtain ⟨e, he1, he2⟩ := SP.fetchAlbum_fail env (jsDisplay (getF cfg "id")) hfail
    refine ⟨e, ?_, he2⟩
    rw [he1]
    simp [SP.finishWith]
  · have h' := (jsStrEq_eq_true_iff _ _).mp h
    have hd : SP.dispatch env cfg = SP.fetchArtist env (jsDisplay (getF cfg "id")) := by
      unfold SP.dispatch
      simp [h', jsStrEq]
    have he : SP.dispatchEndpoints cfg = SP.artistEndpoints (jsDisplay (getF cfg "id")) := by
      unfold SP.dispatchEndpoints
      simp [h', jsStrEq]
    rw [he] at hfail ⊢
    rw [hd]
    obtain ⟨e, he1, he2⟩ := SP.fetchArtist_fail env (jsDisplay (getF cfg "id")) hfail
    refine ⟨e, ?_, he2⟩
    rw [he1]
    simp [SP.finishWith]

/-- An environment in which the album track-page sub-request fails while
every other request succeeds. -/
def demoFailEnv : Env := fun ep =>
  if ep = "/albums/a1/tracks?limit=50" then .error "boom" else .ok (Json.obj [])

def cfgAlbum : Config := [("type", Json.str "album"), ("id", Json.str "a1")]

/-- C3 witness. -/
theorem spotify_c3_witness :
    freshHit [] (cacheKey cfgAlbum) 0 = false
    ∧ (jsStrEq (getF cfgAlbum "type") "album" = true
        ∨ jsStrEq (getF cfgAlbum "type") "artist" = true)
    ∧ (∃ ep ∈ SP.dispatchEndpoints cfgAlbum, isErr (demoFailEnv ep) = true)
    ∧ ∃ e, SP.fetchSpotifyData demoFailEnv cfgAlbum [] 0
            = (.error e, [], SP.dispatchEndpoints cfgAlbum)
        ∧ ∃ ep ∈ SP.dispatchEndpoints cfgAlbum, demoFailEnv ep = .error e :=
  ⟨rfl, Or.inl rfl, ⟨"/albums/a1/tracks?limit=50", by decide, rfl⟩,
   spotify_c3_composite_atomicity demoFailEnv cfgAlbum [] 0 rfl (Or.inl rfl)
     ⟨"/albums/a1/tracks?limit=50", by decide, rfl⟩⟩

/-- C4: fetchSpotifyData returns the cached payload unchanged with no HTTP
request exactly on a fresh cache entry (now - fetched_at strictly below the
5-minute TTL); at or past the TTL the entry is treated as absent and the
miss path runs, issuing precisely the dispatch endpoints; and two fetches
within the TTL window issue exactly one underlying HTTP call sequence and
return the identical payload. -/
theorem spotify_c4_cache_ttl :
    (∀ (env : Env) (cfg : Config) (cache : Cache) (now : Int) (e : CacheEntry),
       cacheGet cache (cacheKey cfg) = some e → now - e.timestamp < cacheTimeout →
       SP.fetchSpotifyData env cfg cache now = (.ok e.data, cache, []))
    ∧ (∀ (env : Env) (cfg : Config) (cache : Cache) (now : Int),
       freshHit cache (cacheKey cfg) now = false →
       SP.fetchSpotifyData env cfg cache now = SP.fetchPath env cfg cache now
         ∧ (SP.fetchSpotifyData env cfg cache now).2.2 = SP.dispatchEndpoints cfg)
    ∧ (∀ (env : Env) (cfg : Config) (cache : Cache) (now0 now1 : Int)
         (d : Json) (c1 : Cache) (log : List String),
       freshHit cache (cacheKey cfg) now0 = false →
       SP.fetchSpotifyData env cfg cache now0 = (.ok d, c1, log) →
       now1 - now0 < cacheTimeout →
       SP.fetchSpotifyData env cfg c1 now1 = (.ok d, c1, [])) := by
  refine ⟨SP.fetch_hit, ?_, ?_⟩
  · intro env cfg cache now h
    refine ⟨SP.fetch_stale env cfg cache now h, ?_⟩
    rw [SP.fetch_stale env cfg cache now h]
    exact SP.fetchPath_log env cfg cache now
  · intro env cfg cache now0 now1 d c1 log h0 hfirst hlt
    rw [SP.fetch_stale env cfg cache now0 h0] at hfirst
    unfold SP.fetchPath SP.finishWith at hfirst
    rcases hd : SP.dispatch env cfg with ⟨r, lg⟩
    rw [hd] at hfirst
    cases r with
    | error e => simp at hfirst
    | ok d0 =>
        simp only [Prod.mk.injEq, Except.ok.injEq] at hfirst
        obtain ⟨hdd, hcc, _⟩ := hfirst
        refine SP.fetch_hit env cfg c1 now1 ⟨d, now0⟩ ?_ (by simpa using hlt)
        rw [← hcc, ← hdd]
        exact cacheGet_cacheSet_self cache (cacheKey cfg) ⟨d0, now0⟩

/-- An environment in which every request succeeds with an empty object. -/
def okEnv : Env := fun _ => .ok (Json.obj [])

def cfgTrack : Config := [("type", Json.str "track"), ("id", Json.str "t1")]

def entryW : CacheEntry := { data := Json.null, timestamp := 0 }

def cacheW : Cache := [(cacheKey cfgTrack, entryW)]

def cacheAfterTrack : Cache := cacheSet [] (cacheKey cfgTrack) { data := Json.obj [], timestamp := 0 }

/-- C4 witness. -/
theorem spotify_c4_witness :
    (cacheGet cacheW (cacheKey cfgTrack) = some entryW
      ∧ (1000 : Int) - entryW.timestamp < cacheTimeout
      ∧ SP.fetchSpotifyData okEnv cfgTrack cacheW 1000 = (.ok entryW.data, cacheW, []))
    ∧ (freshHit [] (cacheKey cfgTrack) 0 = false
      ∧ SP.fetchSpotifyData okEnv cfgTrack [] 0 = (.ok (Json.obj []), cacheAfterTrack, ["/tracks/t1"])
      ∧ (100 : Int) - 0 < cacheTimeout
      ∧ SP.fetchSpotifyData okEnv cfgTrack cacheAfterTrack 100 = (.ok (Json.obj []), cacheAfterTrack, [])) :=
  ⟨⟨rfl, by decide, spotify_c4_cache_ttl.1 okEnv cfgTrack cacheW 1000 entryW rfl (by decide)⟩,
   ⟨rfl, rfl, by decide,
    spotify_c4_cache_ttl.2.2 okEnv cfgTrack [] 0 100 (Json.obj []) cacheAfterTrack
      ["/tracks/t1"] rfl rfl (by decide)⟩⟩

def cfgUserPlaylists : Config := [("type", Json.str "user-playlists")]

/-- C7 counterexample: in the main.js revision, the descriptor type
user-playlists is not one of the five kinds named by the claim, yet
fetchSpotifyData issues an HTTP request for it and succeeds instead of
failing with an unsupported-type error. -/
theorem spotify_c7_counterexample :
    (["track", "album", "artist", "playlist", "search"].all
        (fun s => !(jsStrEq (getF cfgUserPlaylists "type") s))) = true
    ∧ Main.fetchSpotifyData 1 okEnv cfgUserPlaylists [] 0
        = (.ok (Json.obj []),
           cacheSet [] (cacheKey cfgUserPlaylists) { data := Json.obj [], timestamp := 0 },
           ["/me/playlists?limit=50"])
    ∧ (Main.fetchSpotifyData 1 okEnv cfgUserPlaylists [] 0).2.2 ≠ [] :=
  ⟨rfl, rfl, by decide⟩

/-- C7 as amended, scoped to the spotify_plugin_main revision: a descriptor
whose content type is none of the five recognized kinds fails with the
unknown-data-type error, issues no HTTP request and leaves the cache
unchanged; each of the five kinds dispatches to its fetch routine.  (The
main.js revision additionally recognizes user-playlists, user-top-tracks,
user-top-artists, recently-played and current-playing, as the
counterexample shows.) -/
theorem spotify_c7_dispatch (env : Env) (cfg : Config) (cache : Cache) (now : Int)
    (hfresh : freshHit cache (cacheKey cfg) now = false) :
    ((["track", "album", "artist", "playlist", "search"].all
        (fun s => !(jsStrEq (getF cfg "type") s))) = true →
      SP.fetchSpotifyData env cfg cache now
        = (.error ("Unknown data type: " ++ jsDisplay (getF cfg "type")), cache, []))
    ∧ (jsStrEq (getF cfg "type") "track" = true →
      SP.fetchSpotifyData env cfg cache now
        = SP.finishWith cache (cacheKey cfg) now (SP.fetchTrack env (jsDisplay (getF cfg "id"))))
    ∧ (jsStrEq (getF cfg "type") "album" = true →
      SP.fetchSpotifyData env cfg cache now
        = SP.finishWith cache (cacheKey cfg) now (SP.fetchAlbum env (jsDisplay (getF cfg "id"))))
    ∧ (jsStrEq (getF cfg "type") "artist" = true →
      SP.fetchSpotifyData env cfg cache now
        = SP.finishWith cache (cacheKey cfg) now (SP.fetchArtist env (jsDisplay (getF cfg "id"))))
    ∧ (jsStrEq (getF cfg "type") "playlist" = true →
      SP.fetchSpotifyData env cfg cache now
        = SP.finishWith cache (cacheKey cfg) now (SP.fetchPlaylist env (jsDisplay (getF cfg "id"))))
    ∧ (jsStrEq (getF cfg "type") "search" = true →
      SP.fetchSpotifyData env cfg cache now
        = SP.finishWith cache (cacheKey cfg) now
            (SP.searchSpotify env (getF cfg "query") (getF cfg "searchType") (getF cfg "limit"))) := by
  rw [SP.fetch_stale env cfg cache now hfresh]
  unfold SP.fetchPath
  refine ⟨?_, ?_, ?_, ?_, ?_, ?_⟩
  · intro hall
    simp only [List.all_cons, List.all_nil, Bool.and_eq_true, Bool.not_eq_true'] at hall
    obtain ⟨h1, h2, h3, h4, h5, _⟩ := hall
    have hd : SP.dispatch env cfg
        = (.error ("Unknown data type: " ++ jsDisplay (getF cfg "type")), []) := by
      unfold SP.dispatch
      simp [h1, h2, h3, h4, h5]
    rw [hd]
    simp [SP.finishWith]
  · intro h
    have h' := (jsStrEq_eq_true_iff _ _).mp h
    have hd : SP.dispatch env cfg = SP.fetchTrack env (jsDisplay (getF cfg "id")) := by
      unfold SP.dispatch
      simp [h', jsStrEq]
    rw [hd]
  · intro h
    have h' := (jsStrEq_eq_true_iff _ _).mp h
    have hd : SP.dispatch env cfg = SP.fetchAlbum env (jsDisplay (getF cfg "id")) := by
      unfold SP.dispatch
      simp [h', jsStrEq]
    rw [hd]
  · intro h
    have h' := (jsStrEq_eq_true_iff _ _).mp h
    have hd : SP.dispatch env cfg = SP.fetchArtist env (jsDisplay (getF cfg "id")) := by
      unfold SP.dispatch
      simp [h', jsStrEq]
    rw [hd]
  · intro h
    have h' := (jsStrEq_eq_true_iff _ _).mp h
    have hd : SP.dispatch env cfg = SP.fetchPlaylist env (jsDisplay (getF cfg "id")) := by
      unfold SP.dispatch
      simp [h', jsStrEq]
    rw [hd]
  · intro h
    have h' := (jsStrEq_eq_true_iff _ _).mp h
    have hd : SP.dispatch env cfg
        = SP.searchSpotify env (getF cfg "query") (getF cfg "searchType") (getF cfg "limit") := by
      unfold SP.dispatch
      simp [h', jsStrEq]
    rw [hd]

def cfgUnknown : Config := [("type", Json.str "podcast"), ("id", Json.str "x1")]

/-- C7 witness. -/
theorem spotify_c7_witness :
    (freshHit [] (cacheKey cfgUnknown) 0 = false
      ∧ (["track", "album", "artist", "playlist", "search"].all
          (fun s => !(jsStrEq (getF cfgUnknown "type") s))) = true
      ∧ SP.fetchSpotifyData okEnv cfgUnknown [] 0
          = (.error ("Unknown data type: " ++ jsDisplay (getF cfgUnknown "type")), [], []))
    ∧ (freshHit [] (cacheKey cfgTrack) 0 = false
      ∧ jsStrEq (getF cfgTrack "type") "track" = true
      ∧ SP.fetchSpotifyData okEnv cfgTrack [] 0
          = SP.finishWith [] (cacheKey cfgTrack) 0 (SP.fetchTrack okEnv (jsDisplay (getF cfgTrack "id")))) :=
  ⟨⟨rfl, rfl, (spotify_c7_dispatch okEnv cfgUnknown [] 0 rfl).1 rfl⟩,
   ⟨rfl, rfl, (spotify_c7_dispatch okEnv cfgTrack [] 0 rfl).2.1 rfl⟩⟩

/-- An environment serving a 150-track playlist: the playlist resource, a
full first track page (100 items) and a final page of 50. -/
def env150 : Env := fun ep =>
  if ep = "/playlists/p1" then
    .ok (Json.obj [("tracks", Json.obj [("total", Json.num 150), ("items", Json.arr [])])])
  else if ep = "/playlists/p1/tracks?offset=0&limit=100" then
    .ok (Json.obj [("items", Json.arr (List.replicate 100 Json.null))])
  else if ep = "/playlists/p1/tracks?offset=100&limit=100" then
    .ok (Json.obj [("items", Json.arr (List.replicate 50 Json.null))])
  else .error "unexpected request"

/-- C8 counterexample: in the main.js revision a cache-miss playlist fetch
for a playlist with more than 100 tracks issues three HTTP requests (the
playlist resource plus two pagination pages), not exactly one. -/
theorem spotify_c8_counterexample :
    (Main.fetchPlaylist 5 env150 "p1").2
      = ["/playlists/p1", "/playlists/p1/tracks?offset=0&limit=100",
         "/playlists/p1/tracks?offset=100&limit=100"]
    ∧ (Main.fetchPlaylist 5 env150 "p1").2.length = 3 := by
  constructor <;> rfl

/-- The pagination loop always issues at least one page request when it has
fuel to run. -/
theorem Main.fetchAllPlaylistTracksAux_log_len (env : Env) (id : String)
    (fuel offset : Nat) (acc : List Json) (h : 1 ≤ fuel) :
    1 ≤ (Main.fetchAllPlaylistTracksAux env id fuel offset acc).2.length := by
  cases fuel with
  | zero => omega
  | succ n =>
      unfold Main.fetchAllPlaylistTracksAux
      cases henv : env ("/playlists/" ++ id ++ "/tracks?offset=" ++ toString offset ++ "&limit=100") with
      | error e => simp [henv]
      | ok resp =>
          by_cases hlen : (jsArrItems (getFieldJS resp "items")).length < 100
          · simp [henv, hlen]
          · simp [henv, hlen]

/-- C8 as amended: in the spotify_plugin_main revision a cache-miss playlist
fetch issues exactly one HTTP request, GET of the playlist resource,
regardless of track count; in the main.js revision that holds only when the
embedded tracks.total is not above 100 — when it exceeds 100, at least one
additional pagination request is issued. -/
theorem spotify_c8_playlist_requests :
    (∀ (env : Env) (cfg : Config) (cache : Cache) (now : Int),
       freshHit cache (cacheKey cfg) now = false →
       jsStrEq (getF cfg "type") "playlist" = true →
       (SP.fetchSpotifyData env cfg cache now).2.2
         = ["/playlists/" ++ jsDisplay (getF cfg "id")])
    ∧ (∀ (fuel : Nat) (env : Env) (id : String) (p : Json),
       env ("/playlists/" ++ id) = .ok p →
       jsGT100 (getFieldJS (getFieldJS p "tracks") "total") = false →
       Main.fetchPlaylist fuel env id = (.ok p, ["/playlists/" ++ id]))
    ∧ (∀ (fuel : Nat) (env : Env) (id : String) (p : Json),
       1 ≤ fuel →
       env ("/playlists/" ++ id) = .ok p →
       jsGT100 (getFieldJS (getFieldJS p "tracks") "total") = true →
       2 ≤ (Main.fetchPlaylist fuel env id).2.length) := by
  refine ⟨?_, ?_, ?_⟩
  · intro env cfg cache now hfresh htype
    rw [SP.fetch_stale env cfg cache now hfresh, SP.fetchPath_log]
    have h' := (jsStrEq_eq_true_iff _ _).mp htype
    unfold SP.dispatchEndpoints
    simp [h', jsStrEq]
  · intro fuel env id p henv hle
    unfold Main.fetchPlaylist
    dsimp only
    rw [henv]
    dsimp only
    rw [hle]
    simp
  · intro fuel env id p hfuel henv hgt
    unfold Main.fetchPlaylist
    dsimp only
    rw [henv]
    dsimp only
    rw [hgt]
    simp only [if_pos rfl]
    have hlog := Main.fetchAllPlaylistTracksAux_log_len env id fuel 0 [] hfuel
    unfold Main.fetchAllPlaylistTracks
    rcases hall : Main.fetchAllPlaylistTracksAux env id fuel 0 [] with ⟨r, log⟩
    rw [hall] at hlog
    simp only at hlog
    cases r <;> simp <;> omega

/-- An environment serving a 50-track playlist. -/
def env50 : Env := fun ep =>
  if ep = "/playlists/p2" then
    .ok (Json.obj [("tracks", Json.obj [("total", Json.num 50), ("items", Json.arr [])])])
  else .error "unexpected request"

def cfgPlaylist : Config := [("type", Json.str "playlist"), ("id", Json.str "p1")]

/-- C8 witness. -/
theorem spotify_c8_witness :
    (freshHit [] (cacheKey cfgPlaylist) 0 = false
      ∧ jsStrEq (getF cfgPlaylist "type") "playlist" = true
      ∧ (SP.fetchSpotifyData env150 cfgPlaylist [] 0).2.2 = ["/playlists/p1"])
    ∧ (env50 "/playlists/p2"
        = .ok (Json.obj [("tracks", Json.obj [("total", Json.num 50), ("items", Json.arr [])])])
      ∧ Main.fetchPlaylist 5 env50 "p2"
        = (.ok (Json.obj [("tracks", Json.obj [("total", Json.num 50), ("items", Json.arr [])])]),
           ["/playlists/p2"])
      ∧ 2 ≤ (Main.fetchPlaylist 5 env150 "p1").2.length) :=
  ⟨⟨rfl, rfl, spotify_c8_playlist_requests.1 env150 cfgPlaylist [] 0 rfl rfl⟩,
   ⟨rfl,
    spotify_c8_playlist_requests.2.1 5 env50 "p2" _ rfl rfl,
    spotify_c8_playlist_requests.2.2 5 env150 "p1" _ (by omega) rfl rfl⟩⟩

/-- A successful regex id search returns a non-empty capture. -/
theorem regexIdSearch_ne_nil (hay needle r : List Char)
    (h : regexIdSearch hay needle = some r) : r ≠ [] := by
  induction hay with
  | nil => simp [regexIdSearch] at h
  | cons a t ih =>
      unfold regexIdSearch at h
      by_cases hp : needle.isPrefixOf (a :: t)
      · rw [if_pos hp] at h
        by_cases he : (((a :: t).drop needle.length).takeWhile Char.isAlphanum).isEmpty
        · rw [if_pos he] at h
          exact ih h
        · rw [if_neg he] at h
          injection h with h2
          intro h0
          apply he
          rw [h2, h0]
          rfl
      · rw [if_neg hp] at h
        exact ih h

/-- Unfolding of findSome? on a cons cell. -/
theorem findSome?_mem_of_eq_some {α β : Type} (f : α → Option β) (l : List α) (b : β)
    (h : l.findSome? f = some b) : ∃ a ∈ l, f a = some b := by
  induction l with
  | nil => simp [List.findSome?] at h
  | cons x xs ih =>
      unfold List.findSome? at h
      cases hfx : f x with
      | some v =>
          rw [hfx] at h
          dsimp only at h
          injection h with hv
          exact ⟨x, by simp, by rw [hfx, hv]⟩
      | none =>
          rw [hfx] at h
          dsimp only at h
          obtain ⟨a, hm, ha⟩ := ih h
          exact ⟨a, by simp [hm], ha⟩

/-- A successfully extracted id is a non-empty string. -/
theorem extractIdFromUrl_ok_ne (u i : String) (h : extractIdFromUrl u = .ok i) :
    i ≠ "" := by
  unfold extractIdFromUrl at h
  rcases hf : ["track", "album", "artist", "playlist"].findSome? (extractOne u) with _ | j
  · rw [hf] at h
    exact absurd h (by simp)
  · rw [hf] at h
    injection h with hj
    subst hj
    obtain ⟨k, _, hk⟩ := findSome?_mem_of_eq_some (extractOne u) _ j hf
    unfold extractOne at hk
    rcases Option.map_eq_some'.mp hk with ⟨r, hr, hj2⟩
    have hne := regexIdSearch_ne_nil _ _ _ hr
    intro h0
    apply hne
    have : (String.mk r).data = ("" : String).data := by rw [hj2, h0]
    exact this

/-- C9 counterexample: a code block with neither id nor url; the main.js
revision of parseCodeBlockConfig succeeds (with the playlist default)
instead of throwing. -/
theorem spotify_c9_counterexample :
    getF (rawParse "layout: card") "id" = Json.undefined
    ∧ getF (rawParse "layout: card") "url" = Json.undefined
    ∧ Main.parseCodeBlockConfig demoSettings "layout: card"
        = .ok [("layout", Json.str "card"), ("type", Json.str "playlist"), ("limit", Json.num 20)] :=
  ⟨rfl, rfl, rfl⟩

@[simp]
theorem jsTruthy_undef : jsTruthy Json.undefined = false := rfl

@[simp]
theorem jsTruthy_str (t : String) : jsTruthy (Json.str t) = decide (t ≠ "") := rfl

/-- C9 as amended: in the spotify_plugin_main revision, a code-block source
carrying a truthy id (or a url from which an id can be extracted) but no
type key parses successfully to a descriptor of type playlist, and a source
with neither id nor url throws the missing-id error; the main.js revision
applies the same playlist default but never throws, succeeding even when id
and url are both absent. -/
theorem spotify_c9_parse_defaults :
    (∀ (st : Settings) (source : String),
       jsTruthy (getF (rawParse source) "id") = true →
       getF (rawParse source) "type" = Json.undefined →
       (SP.parseCodeBlockConfig st source).map (fun c => getF c "type")
         = .ok (Json.str "playlist"))
    ∧ (∀ (st : Settings) (source : String) (i : String),
       jsTruthy (getF (rawParse source) "id") = false →
       getF (rawParse source) "type" = Json.undefined →
       jsTruthy (getF (rawParse source) "url") = true →
       extractIdFromUrl (jsDisplay (getF (rawParse source) "url")) = .ok i →
       (SP.parseCodeBlockConfig st source).map (fun c => getF c "type")
         = .ok (Json.str "playlist"))
    ∧ (∀ (st : Settings) (source : String),
       jsTruthy (getF (rawParse source) "id") = false →
       jsTruthy (getF (rawParse source) "url") = false →
       SP.parseCodeBlockConfig st source = .error "No Spotify ID given")
    ∧ (∀ (st : Settings) (source : String),
       ∃ c, Main.parseCodeBlockConfig st source = .ok c
         ∧ (getF (rawParse source) "type" = Json.undefined →
             getF c "type" = Json.str "playlist")) := by
  refine ⟨?_, ?_, ?_, ?_⟩
  · intro st source hid htype
    unfold SP.parseCodeBlockConfig SP.applyDefaults
    rw [htype]
    simp [jsOr, hid, Except.map]
  · intro st source i hid htype hurl hex
    unfold SP.parseCodeBlockConfig SP.applyDefaults
    rw [htype]
    have hine := extractIdFromUrl_ok_ne _ _ hex
    simp [jsOr, hid, hurl, hex, hine, Except.map]
  · intro st source hid hurl
    unfold SP.parseCodeBlockConfig SP.applyDefaults
    simp [jsOr, hid, hurl]
  · intro st source
    refine ⟨Main.applyDefaults st (rawParse source), rfl, ?_⟩
    intro htype
    simp [Main.applyDefaults, jsOr, htype]

/-- C9 witness. -/
theorem spotify_c9_witness :
    (jsTruthy (getF (rawParse "id: abc") "id") = true
      ∧ getF (rawParse "id: abc") "type" = Json.undefined
      ∧ (SP.parseCodeBlockConfig demoSettings "id: abc").map (fun c => getF c "type")
          = .ok (Json.str "playlist"))
    ∧ (jsTruthy (getF (rawParse "url: open.spotify.com/track/xyz9") "id") = false
      ∧ getF (rawParse "url: open.spotify.com/track/xyz9") "type" = Json.undefined
      ∧ jsTruthy (getF (rawParse "url: open.spotify.com/track/xyz9") "url") = true
      ∧ extractIdFromUrl (jsDisplay (getF (rawParse "url: open.spotify.com/track/xyz9") "url"))
          = .ok "xyz9"
      ∧ (SP.parseCodeBlockConfig demoSettings "url: open.spotify.com/track/xyz9").map
          (fun c => getF c "type") = .ok (Json.str "playlist"))
    ∧ (jsTruthy (getF (rawParse "") "id") = false
      ∧ jsTruthy (getF (rawParse "") "url") = false
      ∧ SP.parseCodeBlockConfig demoSettings "" = .error "No Spotify ID given") :=
  ⟨⟨rfl, rfl, spotify_c9_parse_defaults.1 demoSettings "id: abc" rfl rfl⟩,
   ⟨rfl, rfl, rfl, rfl,
    spotify_c9_parse_defaults.2.1 demoSettings "url: open.spotify.com/track/xyz9" "xyz9"
      rfl rfl rfl rfl⟩,
   ⟨rfl, rfl, spotify_c9_parse_defaults.2.2.1 demoSettings "" rfl rfl⟩⟩
